import Mathlib

/-!
Verification of the LLM player adapters in `LLM_bot.py`.

The file shallowly embeds the two adapter classes `Gemini2_0Player` and
`OpenAIGPT4OMiniPlayer`: their `decide` retry loop, the response
normalization performed on each attempt, and the `get_state_string`
serializer.  The Python standard-library pieces the code relies on
(`json.loads`, `int(...)`, `str.strip`, dict and list subscripting, and
Python's chained comparison on dynamically typed values) are modelled once
as `py*` functions over an explicit dynamic-value type `PyVal`; the code of
each class is then translated on top of them, keeping the duplication of
the source (each class has its own copy of the loop and serializer).

The remote chat-completion client is an external collaborator: it is
modelled by a function `client : Nat → CompletionOutcome` giving, for each
attempt index, what the call to `client.chat.completions.create` produced
(a raised exception, or a completion whose first choice carries optional
content text).  The `decide` model additionally reports how many remote
calls were made and how many inter-attempt `time.sleep` delays elapsed, so
that the retry-protocol claims can be stated.
-/

/-- Python exception classes that the adapter code can raise or catch:
`json.JSONDecodeError`, `KeyError`, `TypeError`, `ValueError`, `IndexError`. -/
inductive PyExc where
  | jsonDecodeError : PyExc
  | keyError : PyExc
  | typeError : PyExc
  | valueError : PyExc
  | indexError : PyExc
deriving DecidableEq, Repr

/-- Dynamically-typed Python values as produced by `json.loads`: integers,
booleans, strings, `None`, lists and (string-keyed) dicts. -/
inductive PyVal where
  | int : Int → PyVal
  | bool : Bool → PyVal
  | str : String → PyVal
  | null : PyVal
  | list : List PyVal → PyVal
  | dict : List (String × PyVal) → PyVal

/-- JSON whitespace characters (also the whitespace `str.strip` removes in
the ASCII fragment this model covers). -/
def isPyWs (c : Char) : Bool :=
  c = ' ' ∨ c = '\t' ∨ c = '\n' ∨ c = '\r'

/-- Model of Python `str.strip()` on a character list (ASCII whitespace
fragment): drop whitespace from both ends. -/
def pyStrip (cs : List Char) : List Char :=
  ((cs.dropWhile isPyWs).reverse.dropWhile isPyWs).reverse

/-- Accumulate the numeric value of a digit string. -/
def digitsToNat (acc : Nat) : List Char → Nat
  | [] => acc
  | c :: cs => digitsToNat (acc * 10 + (c.toNat - 48)) cs

/-- Parse the body of a JSON string literal (the opening quote already
consumed); escape sequences are outside the modelled fragment. -/
def parseStrBody : List Char → List Char → Option (String × List Char)
  | [], _ => none
  | c :: rest, acc =>
    if c = '\"' then some (String.mk acc.reverse, rest)
    else if c = '\\' then none
    else parseStrBody rest (c :: acc)

/-- Parse an unsigned JSON integer: `0`, or a nonzero digit followed by
digits (JSON forbids leading zeros). -/
def parseJsonNat (cs : List Char) : Option (Nat × List Char) :=
  match cs with
  | '0' :: rest =>
    match rest with
    | c :: _ => if c.isDigit then none else some (0, rest)
    | [] => some (0, [])
  | c :: rest =>
    if c.isDigit then
      some (digitsToNat 0 ((c :: rest).takeWhile Char.isDigit),
            (c :: rest).dropWhile Char.isDigit)
    else none
  | [] => none

/-- Parse a JSON integer with optional leading minus sign (JSON forbids a
leading plus). -/
def parseJsonInt (cs : List Char) : Option (Int × List Char) :=
  match cs with
  | '-' :: rest => (parseJsonNat rest).map (fun p => (-(p.1 : Int), p.2))
  | _ => (parseJsonNat cs).map (fun p => ((p.1 : Int), p.2))

mutual

/-- Fuelled recursive-descent parser for the JSON fragment `json.loads`
is applied to in this code base: objects, arrays, strings without escapes,
integers, `true`, `false`, `null`.  Floating-point numbers are outside the
fragment (no reply content in the verified claims involves them). -/
def parseVal : Nat → List Char → Option (PyVal × List Char)
  | 0, _ => none
  | Nat.succ fuel, cs =>
    match cs.dropWhile isPyWs with
    | [] => none
    | c :: rest =>
      if c = '\x7b' then
        match rest.dropWhile isPyWs with
        | '\x7d' :: r => some (PyVal.dict [], r)
        | cs2 => (parsePairs fuel cs2).map (fun p => (PyVal.dict p.1, p.2))
      else if c = '[' then
        match rest.dropWhile isPyWs with
        | ']' :: r => some (PyVal.list [], r)
        | cs2 => (parseElems fuel cs2).map (fun p => (PyVal.list p.1, p.2))
      else if c = '\"' then
        (parseStrBody rest []).map (fun p => (PyVal.str p.1, p.2))
      else if c = 't' then
        match rest with
        | 'r' :: 'u' :: 'e' :: r => some (PyVal.bool true, r)
        | _ => none
      else if c = 'f' then
        match rest with
        | 'a' :: 'l' :: 's' :: 'e' :: r => some (PyVal.bool false, r)
        | _ => none
      else if c = 'n' then
        match rest with
        | 'u' :: 'l' :: 'l' :: r => some (PyVal.null, r)
        | _ => none
      else
        (parseJsonInt (c :: rest)).map (fun p => (PyVal.int p.1, p.2))

/-- Parse the members of a JSON object after the opening brace (the case of
an immediately closing brace is handled by `parseVal`). -/
def parsePairs : Nat → List Char → Option (List (String × PyVal) × List Char)
  | 0, _ => none
  | Nat.succ fuel, cs =>
    match cs with
    | '\"' :: rest =>
      match parseStrBody rest [] with
      | none => none
      | some (key, r1) =>
        match r1.dropWhile isPyWs with
        | ':' :: r2 =>
          match parseVal fuel r2 with
          | none => none
          | some (v, r3) =>
            match r3.dropWhile isPyWs with
            | ',' :: r4 =>
              (parsePairs fuel (r4.dropWhile isPyWs)).map
                (fun p => ((key, v) :: p.1, p.2))
            | '\x7d' :: r4 => some ([(key, v)], r4)
            | _ => none
        | _ => none
    | _ => none

/-- Parse the elements of a JSON array after the opening bracket (the case
of an immediately closing bracket is handled by `parseVal`). -/
def parseElems : Nat → List Char → Option (List PyVal × List Char)
  | 0, _ => none
  | Nat.succ fuel, cs =>
    match parseVal fuel cs with
    | none => none
    | some (v, r1) =>
      match r1.dropWhile isPyWs with
      | ',' :: r2 => (parseElems fuel r2).map (fun p => (v :: p.1, p.2))
      | ']' :: r2 => some ([v], r2)
      | _ => none

end

/-- Model of Python `json.loads` on the fragment described at `parseVal`:
parse one JSON value and require the remaining text to be whitespace;
anything else raises `json.JSONDecodeError`. -/
def pyJsonLoads (s : String) : Except PyExc PyVal :=
  match parseVal (s.length + 1) s.data with
  | some (v, rest) =>
    if rest.dropWhile isPyWs = [] then Except.ok v
    else Except.error PyExc.jsonDecodeError
  | none => Except.error PyExc.jsonDecodeError

/-- Decide whether a character list is a nonempty run of ASCII digits. -/
def allDigits (cs : List Char) : Bool :=
  cs.all Char.isDigit

/-- Model of Python `int(s)` on a string given as a character list (ASCII
fragment, without underscore separators): surrounding whitespace is
ignored, an optional sign is followed by at least one digit (leading
zeros are allowed, unlike JSON); anything else raises `ValueError`. -/
def pyIntOfChars (cs0 : List Char) : Except PyExc Int :=
  match pyStrip cs0 with
  | '+' :: rest =>
    if rest ≠ [] ∧ allDigits rest then Except.ok (digitsToNat 0 rest)
    else Except.error PyExc.valueError
  | '-' :: rest =>
    if rest ≠ [] ∧ allDigits rest then Except.ok (-(digitsToNat 0 rest : Int))
    else Except.error PyExc.valueError
  | rest =>
    if rest ≠ [] ∧ allDigits rest then Except.ok (digitsToNat 0 rest)
    else Except.error PyExc.valueError

/-- Model of the Python subscript `v["k"]` on a dynamic value: a dict
yields the value or raises `KeyError`; any non-dict value raises
`TypeError` (in particular `1["k"]` and `"s"["k"]` are `TypeError`s). -/
def pySubscript (v : PyVal) (k : String) : Except PyExc PyVal :=
  match v with
  | PyVal.dict d =>
    match d.lookup k with
    | some w => Except.ok w
    | none => Except.error PyExc.keyError
  | _ => Except.error PyExc.typeError

/-- Model of a Python dict lookup `d[k]` for a statically string-keyed
dict (used for `color_to_index` and `player_state`). -/
def pyDictGet {α : Type} (d : List (String × α)) (k : String) : Except PyExc α :=
  match d.lookup k with
  | some v => Except.ok v
  | none => Except.error PyExc.keyError

/-- Model of Python list subscripting `xs[i]` with an integer index:
negative indices count from the end, out-of-range raises `IndexError`. -/
def pyListGet {α : Type} (xs : List α) (i : Int) : Except PyExc α :=
  let j : Int := if i < 0 then i + xs.length else i
  if h : 0 ≤ j ∧ j.toNat < xs.length then Except.ok (xs.get ⟨j.toNat, h.2⟩)
  else Except.error PyExc.indexError

/-- Model of the guarded return
`if 0 <= action_idx < len(playable_actions): return playable_actions[action_idx]`
on the dynamically typed `action_idx`: Python's chained comparison treats a
`bool` as the integer 0 or 1, and raises `TypeError` on non-numeric values.
The result is `some i` when the guard passes (the adapter then returns the
move at position `i`), `none` when the guard fails and control falls
through. -/
def pyRangeCheck (N : Nat) (v : PyVal) : Except PyExc (Option Nat) :=
  match v with
  | PyVal.int k =>
    Except.ok (if 0 ≤ k ∧ k < (N : Int) then some k.toNat else none)
  | PyVal.bool b =>
    Except.ok
      (if 0 ≤ (if b then (1 : Int) else 0) ∧ (if b then (1 : Int) else 0) < (N : Int)
       then some (if b then 1 else 0) else none)
  | _ => Except.error PyExc.typeError

/-- What one call to `client.chat.completions.create` produced: either the
call raised (transport failure), or it returned a completion whose first
choice carries the given content (`CompletionOutcome.ok none` covers the
`not completion.choices or not ...message or not ...content` cases other
than the empty string, which is `CompletionOutcome.ok (some "")`). -/
inductive CompletionOutcome where
  | raise : CompletionOutcome
  | ok : Option String → CompletionOutcome

/-- Observable outcome of the retry loop: the index into
`playable_actions` that is returned, the number of remote calls made, and
the number of inter-attempt `time.sleep` delays. -/
structure DecideOutcome where
  idx : Nat
  calls : Nat
  delays : Nat
deriving DecidableEq, Repr

/-- Observable outcome of a whole `decide` call: the returned action
(`none` models Python's implicit `None` return, reachable only with a zero
retry budget), with the call and delay counts. -/
structure DecideResult where
  action : Option String
  calls : Nat
  delays : Nat
deriving DecidableEq, Repr

/-- The fields of `game.state` that `decide` and `get_state_string` read.
Fields whose contents are only ever formatted into the prompt are kept as
their formatted text. -/
structure PyState where
  current_prompt : String
  is_initial_build_phase : Bool
  num_turns : Nat
  colors : List String
  color_to_index : List (String × Nat)
  player_state : List (String × Int)
  buildings_by_color : String
  resource_freqdeck : String
  development_listdeck : List String
  is_discarding : Bool
  is_moving_knight : Bool
  is_resolving_trade : Bool
  current_trade : String

/-- The per-attempt completion outcomes consumed by a loop of
`for attempt in range(m)`: the environment's answer to the i-th remote
call, for each i below m. -/
def attemptsOf (client : Nat → CompletionOutcome) (m : Nat) : List CompletionOutcome :=
  (List.range m).map client

/-- Python `repr`/f-string rendering of a boolean. -/
def pyBoolStr (b : Bool) : String :=
  if b then "True" else "False"

namespace Gemini2_0Player

/-- `self.max_retries = 2` set in `Gemini2_0Player.__init__`. -/
def max_retries : Nat := 2

/-- `self.retry_delay = 1` (seconds) set in `Gemini2_0Player.__init__`. -/
def retry_delay : Nat := 1

/-- The model identifier this adapter sends with every request. -/
def model : String := "google/gemini-2.0-flash-001"

/-- The single user message built from the serialized state (the f-string
in the `create` call, with its surrounding instruction text). -/
def promptOf (state_output : String) : String :=
  "You are an AI that plays Catan. Given a game state, you should analyze it and choose the best possible move from the list of actions. Only return the action number.\n"
    ++ state_output
    ++ "\nOnly return the action number"

/-- The range constraint this adapter declares in its JSON response
schema: `minimum 0, maximum len(playable_actions) - 1`. -/
def schemaMaximum (N : Nat) : Option Nat :=
  some (N - 1)

/-- One iteration of the `for color in game.state.colors` loop of
`get_state_string`: the lines appended for one color, with detailed
resources for the adapter's own color and only a card total for others.
Any missing `color_to_index` or `player_state` key raises `KeyError`. -/
def playerSection (selfColor : String) (st : PyState) (color : String) :
    Except PyExc (List String) := do
  let player_idx ← pyDictGet st.color_to_index color
  let key := "P" ++ toString player_idx
  let vp ← pyDictGet st.player_state (key ++ "_VICTORY_POINTS")
  let head := "\n" ++ color ++ (if color = selfColor then "(ME)" else "") ++ ":"
  let vpLine := "  Victory Points: " ++ toString vp
  if color = selfColor then do
    let wood ← pyDictGet st.player_state (key ++ "_WOOD_IN_HAND")
    let brick ← pyDictGet st.player_state (key ++ "_BRICK_IN_HAND")
    let sheep ← pyDictGet st.player_state (key ++ "_SHEEP_IN_HAND")
    let wheat ← pyDictGet st.player_state (key ++ "_WHEAT_IN_HAND")
    let ore ← pyDictGet st.player_state (key ++ "_ORE_IN_HAND")
    let knight ← pyDictGet st.player_state (key ++ "_KNIGHT_IN_HAND")
    let vpCard ← pyDictGet st.player_state (key ++ "_VICTORY_POINT_IN_HAND")
    let yop ← pyDictGet st.player_state (key ++ "_YEAR_OF_PLENTY_IN_HAND")
    let mono ← pyDictGet st.player_state (key ++ "_MONOPOLY_IN_HAND")
    let road ← pyDictGet st.player_state (key ++ "_ROAD_BUILDING_IN_HAND")
    pure [head, vpLine, "  Resources:",
      "    Wood: " ++ toString wood,
      "    Brick: " ++ toString brick,
      "    Sheep: " ++ toString sheep,
      "    Wheat: " ++ toString wheat,
      "    Ore: " ++ toString ore,
      "  Development Cards:",
      "    Knights: " ++ toString knight,
      "    Victory Points: " ++ toString vpCard,
      "    Year of Plenty: " ++ toString yop,
      "    Monopoly: " ++ toString mono,
      "    Road Building: " ++ toString road]
  else do
    let wood ← pyDictGet st.player_state (key ++ "_WOOD_IN_HAND")
    let brick ← pyDictGet st.player_state (key ++ "_BRICK_IN_HAND")
    let sheep ← pyDictGet st.player_state (key ++ "_SHEEP_IN_HAND")
    let wheat ← pyDictGet st.player_state (key ++ "_WHEAT_IN_HAND")
    let ore ← pyDictGet st.player_state (key ++ "_ORE_IN_HAND")
    pure [head, vpLine,
      "  Total Resource Cards: " ++ toString (wood + brick + sheep + wheat + ore)]

/-- Model of `Gemini2_0Player.get_state_string`: the formatted state
summary, raising `KeyError` if any read of a `game.state` dict misses. -/
def get_state_string (selfColor : String) (st : PyState)
    (playable_actions : List String) : Except PyExc String := do
  let phase := ["=== DEBUG BOT STATE ===", "Game Phase:",
    "  Current Prompt: " ++ st.current_prompt,
    "  Initial Build Phase: " ++ pyBoolStr st.is_initial_build_phase,
    "  Turn Number: " ++ toString st.num_turns,
    "\nPlayers:",
    "I am playing as: " ++ selfColor]
  let sections ← st.colors.foldlM
    (fun acc color => do
      let sec ← playerSection selfColor st color
      pure (acc ++ sec))
    ([] : List String)
  let board := ["\nBoard State:",
    "  Buildings: " ++ st.buildings_by_color,
    "  Resource Bank: " ++ st.resource_freqdeck,
    "  Development Cards Left: " ++ toString st.development_listdeck.length]
  let special :=
    (if st.is_discarding then ["\nDiscard Phase Active"] else []) ++
    (if st.is_moving_knight then ["\nKnight Movement Active"] else []) ++
    (if st.is_resolving_trade then ["\nTrade Active: " ++ st.current_trade] else [])
  let acts := (List.range playable_actions.length).zip playable_actions
  let actionLines := acts.map (fun p => toString p.1 ++ ": " ++ p.2)
  pure (String.intercalate "\n"
    (phase ++ sections ++ board ++ special ++ ["\nPlayable Actions:"]
      ++ actionLines ++ ["====================="]))

/-- The inner `try: action_idx = int(...content.strip()) ... except
ValueError: pass` block: parse the stripped content as a bare integer and
apply the guarded range check; a `ValueError` is swallowed (the attempt
just fails). -/
def bareInt (N : Nat) (s : String) : Except PyExc (Option Nat) :=
  match pyIntOfChars (pyStrip s.data) with
  | Except.ok k => pyRangeCheck N (PyVal.int k)
  | Except.error PyExc.valueError => Except.ok none
  | Except.error e => Except.error e

/-- The `try: content = json.loads(...) ... except (json.JSONDecodeError,
KeyError)` block of one attempt: structured parsing with its range check;
only a decode error or a missing key routes to the bare-integer fallback,
every other exception (notably `TypeError`) propagates to the attempt's
outer `except Exception`. -/
def innerTry (N : Nat) (s : String) : Except PyExc (Option Nat) :=
  match pyJsonLoads s with
  | Except.ok v =>
    match pySubscript v "selected_action" with
    | Except.ok idx => pyRangeCheck N idx
    | Except.error PyExc.keyError => bareInt N s
    | Except.error e => Except.error e
  | Except.error PyExc.jsonDecodeError => bareInt N s
  | Except.error e => Except.error e

/-- What one iteration of the retry loop does with the remote call's
outcome: `some i` means the iteration executes `return playable_actions[i]`
(a successful normalization), `none` means the iteration failed — a raised
transport error, an absent or empty content, an invalid or out-of-range
reply, or an exception caught by the outer `except Exception` — and the
loop retries or falls back. -/
def attemptStep (N : Nat) (c : CompletionOutcome) : Option Nat :=
  match c with
  | CompletionOutcome.raise => none
  | CompletionOutcome.ok none => none
  | CompletionOutcome.ok (some s) =>
    if s = "" then none
    else
      match innerTry N s with
      | Except.ok r => r
      | Except.error _ => none

/-- The `for attempt in range(self.max_retries)` loop over the per-attempt
outcomes (head = current attempt, tail = remaining attempts): a successful
attempt returns its index immediately; a failed non-final attempt sleeps
and continues (one delay); a failed final attempt returns index 0 (the
`return playable_actions[0]` fallback).  The equations are split on the
tail so that "this is the last attempt" (`attempt < self.max_retries - 1`
false) is visible as an empty tail. -/
def decideLoop (N : Nat) : CompletionOutcome → List CompletionOutcome → DecideOutcome
  | c, [] =>
    match attemptStep N c with
    | some i => ⟨i, 1, 0⟩
    | none => ⟨0, 1, 0⟩
  | c, c2 :: rest2 =>
    match attemptStep N c with
    | some i => ⟨i, 1, 0⟩
    | none =>
      let o := decideLoop N c2 rest2
      ⟨o.idx, o.calls + 1, o.delays + 1⟩

/-- The retry loop over a full attempt list; `none` models Python's
implicit `None` return when the `for` body never runs (empty budget). -/
def runDecideLoop (N : Nat) : List CompletionOutcome → Option DecideOutcome
  | [] => none
  | c :: rest => some (decideLoop N c rest)

/-- Model of `Gemini2_0Player.decide`: serialize the state and read
`color_to_index[self.color]` before the loop (both may raise, and such
exceptions propagate to the caller), then run the retry loop against the
remote client's outcomes and index `playable_actions` with the result. -/
def decide (color : String) (g : PyState) (playable_actions : List String)
    (client : Nat → CompletionOutcome) : Except PyExc DecideResult :=
  match get_state_string color g playable_actions with
  | Except.error e => Except.error e
  | Except.ok state_output =>
    match pyDictGet g.color_to_index color with
    | Except.error e => Except.error e
    | Except.ok player_idx =>
      let _key := "P" ++ toString player_idx
      let _prompt := promptOf state_output
      let _schema := schemaMaximum playable_actions.length
      match runDecideLoop playable_actions.length (attemptsOf client max_retries) with
      | none => Except.ok ⟨none, 0, 0⟩
      | some o =>
        match pyListGet playable_actions (Int.ofNat o.idx) with
        | Except.error e => Except.error e
        | Except.ok a => Except.ok ⟨some a, o.calls, o.delays⟩

end Gemini2_0Player

namespace OpenAIGPT4OMiniPlayer

/-- `self.max_retries = 2` set in `OpenAIGPT4OMiniPlayer.__init__`. -/
def max_retries : Nat := 2

/-- `self.retry_delay = 1` (seconds) set in `OpenAIGPT4OMiniPlayer.__init__`. -/
def retry_delay : Nat := 1

/-- The model identifier this adapter sends with every request. -/
def model : String := "openai/gpt-4o-mini"

/-- The fixed system message this adapter sends. -/
def systemPrompt : String :=
  "You are a Catan-playing AI that returns moves in JSON format."

/-- The user message built from the serialized state and the move-count
bound (the f-string in the `create` call). -/
def promptOf (state_output : String) (N : Nat) : String :=
  "Analyze this game state and choose the best possible move from the list of actions.\nOnly return a number between 0 and "
    ++ toString (N - 1) ++ ".\n" ++ state_output

/-- The range constraint this adapter declares in its JSON response
schema: none (its `selected_action` integer field is unconstrained). -/
def schemaMaximum (_N : Nat) : Option Nat :=
  none

/-- One iteration of the `for color in game.state.colors` loop of
`get_state_string` (verbatim duplicate of the Gemini adapter's). -/
def playerSection (selfColor : String) (st : PyState) (color : String) :
    Except PyExc (List String) := do
  let player_idx ← pyDictGet st.color_to_index color
  let key := "P" ++ toString player_idx
  let vp ← pyDictGet st.player_state (key ++ "_VICTORY_POINTS")
  let head := "\n" ++ color ++ (if color = selfColor then "(ME)" else "") ++ ":"
  let vpLine := "  Victory Points: " ++ toString vp
  if color = selfColor then do
    let wood ← pyDictGet st.player_state (key ++ "_WOOD_IN_HAND")
    let brick ← pyDictGet st.player_state (key ++ "_BRICK_IN_HAND")
    let sheep ← pyDictGet st.player_state (key ++ "_SHEEP_IN_HAND")
    let wheat ← pyDictGet st.player_state (key ++ "_WHEAT_IN_HAND")
    let ore ← pyDictGet st.player_state (key ++ "_ORE_IN_HAND")
    let knight ← pyDictGet st.player_state (key ++ "_KNIGHT_IN_HAND")
    let vpCard ← pyDictGet st.player_state (key ++ "_VICTORY_POINT_IN_HAND")
    let yop ← pyDictGet st.player_state (key ++ "_YEAR_OF_PLENTY_IN_HAND")
    let mono ← pyDictGet st.player_state (key ++ "_MONOPOLY_IN_HAND")
    let road ← pyDictGet st.player_state (key ++ "_ROAD_BUILDING_IN_HAND")
    pure [head, vpLine, "  Resources:",
      "    Wood: " ++ toString wood,
      "    Brick: " ++ toString brick,
      "    Sheep: " ++ toString sheep,
      "    Wheat: " ++ toString wheat,
      "    Ore: " ++ toString ore,
      "  Development Cards:",
      "    Knights: " ++ toString knight,
      "    Victory Points: " ++ toString vpCard,
      "    Year of Plenty: " ++ toString yop,
      "    Monopoly: " ++ toString mono,
      "    Road Building: " ++ toString road]
  else do
    let wood ← pyDictGet st.player_state (key ++ "_WOOD_IN_HAND")
    let brick ← pyDictGet st.player_state (key ++ "_BRICK_IN_HAND")
    let sheep ← pyDictGet st.player_state (key ++ "_SHEEP_IN_HAND")
    let wheat ← pyDictGet st.player_state (key ++ "_WHEAT_IN_HAND")
    let ore ← pyDictGet st.player_state (key ++ "_ORE_IN_HAND")
    pure [head, vpLine,
      "  Total Resource Cards: " ++ toString (wood + brick + sheep + wheat + ore)]

/-- Model of `OpenAIGPT4OMiniPlayer.get_state_string` (verbatim duplicate
of the Gemini adapter's). -/
def get_state_string (selfColor : String) (st : PyState)
    (playable_actions : List String) : Except PyExc String := do
  let phase := ["=== DEBUG BOT STATE ===", "Game Phase:",
    "  Current Prompt: " ++ st.current_prompt,
    "  Initial Build Phase: " ++ pyBoolStr st.is_initial_build_phase,
    "  Turn Number: " ++ toString st.num_turns,
    "\nPlayers:",
    "I am playing as: " ++ selfColor]
  let sections ← st.colors.foldlM
    (fun acc color => do
      let sec ← playerSection selfColor st color
      pure (acc ++ sec))
    ([] : List String)
  let board := ["\nBoard State:",
    "  Buildings: " ++ st.buildings_by_color,
    "  Resource Bank: " ++ st.resource_freqdeck,
    "  Development Cards Left: " ++ toString st.development_listdeck.length]
  let special :=
    (if st.is_discarding then ["\nDiscard Phase Active"] else []) ++
    (if st.is_moving_knight then ["\nKnight Movement Active"] else []) ++
    (if st.is_resolving_trade then ["\nTrade Active: " ++ st.current_trade] else [])
  let acts := (List.range playable_actions.length).zip playable_actions
  let actionLines := acts.map (fun p => toString p.1 ++ ": " ++ p.2)
  pure (String.intercalate "\n"
    (phase ++ sections ++ board ++ special ++ ["\nPlayable Actions:"]
      ++ actionLines ++ ["====================="]))

/-- The inner bare-integer `try` block of one attempt (verbatim duplicate
of the Gemini adapter's). -/
def bareInt (N : Nat) (s : String) : Except PyExc (Option Nat) :=
  match pyIntOfChars (pyStrip s.data) with
  | Except.ok k => pyRangeCheck N (PyVal.int k)
  | Except.error PyExc.valueError => Except.ok none
  | Except.error e => Except.error e

/-- The structured-parsing `try` block of one attempt (verbatim duplicate
of the Gemini adapter's). -/
def innerTry (N : Nat) (s : String) : Except PyExc (Option Nat) :=
  match pyJsonLoads s with
  | Except.ok v =>
    match pySubscript v "selected_action" with
    | Except.ok idx => pyRangeCheck N idx
    | Except.error PyExc.keyError => bareInt N s
    | Except.error e => Except.error e
  | Except.error PyExc.jsonDecodeError => bareInt N s
  | Except.error e => Except.error e

/-- What one iteration of the retry loop does with the remote call's
outcome (verbatim duplicate of the Gemini adapter's). -/
def attemptStep (N : Nat) (c : CompletionOutcome) : Option Nat :=
  match c with
  | CompletionOutcome.raise => none
  | CompletionOutcome.ok none => none
  | CompletionOutcome.ok (some s) =>
    if s = "" then none
    else
      match innerTry N s with
      | Except.ok r => r
      | Except.error _ => none

/-- The `for attempt in range(self.max_retries)` loop (verbatim duplicate
of the Gemini adapter's). -/
def decideLoop (N : Nat) : CompletionOutcome → List CompletionOutcome → DecideOutcome
  | c, [] =>
    match attemptStep N c with
    | some i => ⟨i, 1, 0⟩
    | none => ⟨0, 1, 0⟩
  | c, c2 :: rest2 =>
    match attemptStep N c with
    | some i => ⟨i, 1, 0⟩
    | none =>
      let o := decideLoop N c2 rest2
      ⟨o.idx, o.calls + 1, o.delays + 1⟩

/-- The retry loop over a full attempt list (verbatim duplicate of the
Gemini adapter's). -/
def runDecideLoop (N : Nat) : List CompletionOutcome → Option DecideOutcome
  | [] => none
  | c :: rest => some (decideLoop N c rest)

/-- Model of `OpenAIGPT4OMiniPlayer.decide`: identical control flow to
`Gemini2_0Player.decide`, differing only in the model identifier, the
prompt text and the response-schema strictness. -/
def decide (color : String) (g : PyState) (playable_actions : List String)
    (client : Nat → CompletionOutcome) : Except PyExc DecideResult :=
  match get_state_string color g playable_actions with
  | Except.error e => Except.error e
  | Except.ok state_output =>
    match pyDictGet g.color_to_index color with
    | Except.error e => Except.error e
    | Except.ok player_idx =>
      let _key := "P" ++ toString player_idx
      let _prompt := promptOf state_output playable_actions.length
      let _schema := schemaMaximum playable_actions.length
      match runDecideLoop playable_actions.length (attemptsOf client max_retries) with
      | none => Except.ok ⟨none, 0, 0⟩
      | some o =>
        match pyListGet playable_actions (Int.ofNat o.idx) with
        | Except.error e => Except.error e
        | Except.ok a => Except.ok ⟨some a, o.calls, o.delays⟩

end OpenAIGPT4OMiniPlayer

/-! ### Helper lemmas -/

/-- A concrete well-formed game state (one player, all `player_state` keys
present) used to instantiate hypotheses in witness theorems. -/
def sampleState : PyState :=
  ⟨"PLAY_TURN", false, 3, ["RED"], [("RED", 0)],
   [("P0_VICTORY_POINTS", 2), ("P0_WOOD_IN_HAND", 1), ("P0_BRICK_IN_HAND", 0),
    ("P0_SHEEP_IN_HAND", 0), ("P0_WHEAT_IN_HAND", 0), ("P0_ORE_IN_HAND", 0),
    ("P0_KNIGHT_IN_HAND", 0), ("P0_VICTORY_POINT_IN_HAND", 0),
    ("P0_YEAR_OF_PLENTY_IN_HAND", 0), ("P0_MONOPOLY_IN_HAND", 0),
    ("P0_ROAD_BUILDING_IN_HAND", 0)],
   "B", "R", ["K"], false, false, false, "T"⟩

/-- A game state whose `player_state` dict is empty, so that the first
`player_state` read in `get_state_string` raises `KeyError`. -/
def badState : PyState :=
  ⟨"PLAY_TURN", false, 0, ["RED"], [("RED", 0)], [], "B", "R", [],
   false, false, false, "T"⟩

/-- A failed retry-loop iteration: the remote call returned a completion
(no transport failure) but the reply was empty, malformed, or carried no
in-range index, so the iteration produced no move. -/
def Gemini2_0Player.failedReply (N : Nat) (c : CompletionOutcome) : Prop :=
  (∃ oc, c = CompletionOutcome.ok oc) ∧ Gemini2_0Player.attemptStep N c = none

theorem pyListGet_ofNat {α : Type} {xs : List α} {n : Nat} (h : n < xs.length) :
    pyListGet xs (Int.ofNat n) = Except.ok (xs.get ⟨n, h⟩) := by
  simp only [pyListGet, Int.ofNat_eq_natCast]
  split
  · rename_i hc
    exfalso
    omega
  · rename_i hc
    have hcond : 0 ≤ (n : Int) ∧ ((n : Int)).toNat < xs.length := ⟨by omega, by omega⟩
    rw [dif_pos hcond]
    congr 1
theorem pyListGet_zero {α : Type} (a : α) (t : List α) :
    pyListGet (a :: t) 0 = Except.ok a := by
  have h := @pyListGet_ofNat _ (a :: t) 0 (by simp)
  simpa using h

theorem pyRangeCheck_some_lt {N : Nat} {v : PyVal} {i : Nat}
    (h : pyRangeCheck N v = Except.ok (some i)) : i < N := by
  cases v with
  | int k =>
    simp only [pyRangeCheck, Except.ok.injEq] at h
    split at h
    · rename_i hc
      cases h
      omega
    · cases h
  | bool b =>
    simp only [pyRangeCheck, Except.ok.injEq] at h
    by_cases hc : (0 ≤ (if b then (1 : Int) else 0)
        ∧ (if b then (1 : Int) else 0) < (N : Int))
    · rw [if_pos hc] at h
      injection h with h2
      subst h2
      cases b <;> simp_all
    · rw [if_neg hc] at h
      cases h
  | str s => simp [pyRangeCheck] at h
  | null => simp [pyRangeCheck] at h
  | list l => simp [pyRangeCheck] at h
  | dict d => simp [pyRangeCheck] at h

namespace Gemini2_0Player

theorem bareInt_some_lt {N : Nat} {s : String} {i : Nat}
    (h : bareInt N s = Except.ok (some i)) : i < N := by
  unfold bareInt at h
  cases hk : pyIntOfChars (pyStrip s.data) with
  | ok k =>
    simp only [hk] at h
    exact pyRangeCheck_some_lt h
  | error e =>
    simp only [hk] at h
    cases e <;> simp_all

theorem innerTry_some_lt {N : Nat} {s : String} {i : Nat}
    (h : innerTry N s = Except.ok (some i)) : i < N := by
  unfold innerTry at h
  cases hj : pyJsonLoads s with
  | ok v =>
    simp only [hj] at h
    cases hs : pySubscript v "selected_action" with
    | ok w =>
      simp only [hs] at h
      exact pyRangeCheck_some_lt h
    | error e =>
      simp only [hs] at h
      cases e <;> first | exact bareInt_some_lt h | simp_all
  | error e =>
    simp only [hj] at h
    cases e <;> first | exact bareInt_some_lt h | simp_all

theorem attemptStep_some_lt {N : Nat} {c : CompletionOutcome} {i : Nat}
    (h : attemptStep N c = some i) : i < N := by
  cases c with
  | raise => simp [attemptStep] at h
  | ok content =>
    cases content with
    | none => simp [attemptStep] at h
    | some s =>
      simp only [attemptStep] at h
      by_cases he : s = ""
      · rw [if_pos he] at h
        cases h
      · rw [if_neg he] at h
        cases hi : innerTry N s with
        | ok r =>
          simp only [hi] at h
          rw [h] at hi
          exact innerTry_some_lt hi
        | error e =>
          simp only [hi] at h
          cases h

theorem decideLoop_idx_lt {N : Nat} (hN : 0 < N) :
    ∀ (c : CompletionOutcome) (rest : List CompletionOutcome),
      (decideLoop N c rest).idx < N := by
  intro c rest
  induction rest generalizing c with
  | nil =>
    cases ha : attemptStep N c with
    | none => simp only [decideLoop, ha]; exact hN
    | some i => simp only [decideLoop, ha]; exact attemptStep_some_lt ha
  | cons c2 rest2 ih =>
    cases ha : attemptStep N c with
    | none => simp only [decideLoop, ha]; exact ih c2
    | some i => simp only [decideLoop, ha]; exact attemptStep_some_lt ha

theorem decideLoop_step_some {N : Nat} {c : CompletionOutcome} {i : Nat}
    (rest : List CompletionOutcome) (h : attemptStep N c = some i) :
    decideLoop N c rest = ⟨i, 1, 0⟩ := by
  cases rest <;> simp only [decideLoop, h]

theorem decideLoop_step_none_nil {N : Nat} {c : CompletionOutcome}
    (h : attemptStep N c = none) : decideLoop N c [] = ⟨0, 1, 0⟩ := by
  simp only [decideLoop, h]

theorem decideLoop_step_none_cons {N : Nat} {c c2 : CompletionOutcome}
    {rest2 : List CompletionOutcome} (h : attemptStep N c = none) :
    decideLoop N c (c2 :: rest2) =
      ⟨(decideLoop N c2 rest2).idx, (decideLoop N c2 rest2).calls + 1,
       (decideLoop N c2 rest2).delays + 1⟩ := by
  simp only [decideLoop, h]

end Gemini2_0Player

theorem adapters_attemptStep_eq (N : Nat) (c : CompletionOutcome) :
    OpenAIGPT4OMiniPlayer.attemptStep N c = Gemini2_0Player.attemptStep N c := rfl

theorem adapters_decideLoop_eq (N : Nat) (c : CompletionOutcome)
    (rest : List CompletionOutcome) :
    OpenAIGPT4OMiniPlayer.decideLoop N c rest = Gemini2_0Player.decideLoop N c rest := by
  induction rest generalizing c with
  | nil =>
    simp only [OpenAIGPT4OMiniPlayer.decideLoop, Gemini2_0Player.decideLoop,
      adapters_attemptStep_eq]
  | cons c2 rest2 ih =>
    simp only [OpenAIGPT4OMiniPlayer.decideLoop, Gemini2_0Player.decideLoop,
      adapters_attemptStep_eq, ih]

theorem adapters_decide_eq (color : String) (g : PyState) (pa : List String)
    (client : Nat → CompletionOutcome) :
    OpenAIGPT4OMiniPlayer.decide color g pa client
      = Gemini2_0Player.decide color g pa client := by
  simp only [OpenAIGPT4OMiniPlayer.decide, Gemini2_0Player.decide]
  rw [show OpenAIGPT4OMiniPlayer.get_state_string color g pa
        = Gemini2_0Player.get_state_string color g pa from rfl]
  cases Gemini2_0Player.get_state_string color g pa with
  | error e => rfl
  | ok s =>
    cases pyDictGet g.color_to_index color with
    | error e => rfl
    | ok j =>
      simp only
      rw [show attemptsOf client OpenAIGPT4OMiniPlayer.max_retries
            = [client 0, client 1] from rfl,
          show attemptsOf client Gemini2_0Player.max_retries
            = [client 0, client 1] from rfl]
      simp only [OpenAIGPT4OMiniPlayer.runDecideLoop, Gemini2_0Player.runDecideLoop,
        adapters_decideLoop_eq]

namespace Gemini2_0Player

theorem decide_eq_of_ok {color : String} {g : PyState} {pa : List String}
    {client : Nat → CompletionOutcome} {s : String} {j : Nat}
    (hs : get_state_string color g pa = Except.ok s)
    (hj : pyDictGet g.color_to_index color = Except.ok j) :
    decide color g pa client =
      match pyListGet pa (Int.ofNat (decideLoop pa.length (client 0) [client 1]).idx) with
      | Except.error e => Except.error e
      | Except.ok a =>
        Except.ok ⟨some a, (decideLoop pa.length (client 0) [client 1]).calls,
          (decideLoop pa.length (client 0) [client 1]).delays⟩ := by
  unfold decide
  simp only [hs, hj]
  rfl

theorem decide_ok_mem {color : String} {g : PyState} {pa : List String}
    {client : Nat → CompletionOutcome} {r : DecideResult} (hne : pa ≠ [])
    (h : decide color g pa client = Except.ok r) :
    ∃ a, r.action = some a ∧ a ∈ pa := by
  cases hg : get_state_string color g pa with
  | error e =>
    unfold decide at h
    simp only [hg] at h
    exact Except.noConfusion h
  | ok s =>
    cases hd : pyDictGet g.color_to_index color with
    | error e =>
      unfold decide at h
      simp only [hg, hd] at h
      exact Except.noConfusion h
    | ok j =>
      rw [decide_eq_of_ok hg hd] at h
      have hN : 0 < pa.length := List.length_pos.mpr hne
      have hidx := decideLoop_idx_lt hN (client 0) [client 1]
      simp only [pyListGet_ofNat hidx] at h
      refine ⟨pa.get ⟨_, hidx⟩, ?_, List.get_mem pa _ _⟩
      have h2 := Except.ok.inj h
      rw [← h2]

end Gemini2_0Player

/-! ### Claims -/

/-- Claim C1: for every `decide` call with a non-empty `playable_actions`
list — whatever the game state, the remote client's behaviour, and the
reply contents — if the call returns a value (rather than propagating a
pre-loop exception), the returned move is an element of
`playable_actions`: every return site is either
`playable_actions[action_idx]` after the `0 <= action_idx < len(...)`
check, or `playable_actions[0]`.  This holds for both adapters. -/
theorem claim1_decide_returns_member (color : String) (g : PyState)
    (pa : List String) (client : Nat → CompletionOutcome)
    (r r2 : DecideResult) (hne : pa ≠ []) :
    (Gemini2_0Player.decide color g pa client = Except.ok r →
      ∃ a, r.action = some a ∧ a ∈ pa) ∧
    (OpenAIGPT4OMiniPlayer.decide color g pa client = Except.ok r2 →
      ∃ a, r2.action = some a ∧ a ∈ pa) := by
  constructor
  · exact fun h => Gemini2_0Player.decide_ok_mem hne h
  · intro h
    rw [adapters_decide_eq] at h
    exact Gemini2_0Player.decide_ok_mem hne h

/-- Witness for C1 at a concrete input: with two moves and a structured
reply selecting index 1, `decide` returns the move at index 1, which is a
member of the list. -/
theorem claim1_witness :
    Gemini2_0Player.decide "RED" sampleState ["m0", "m1"]
      (fun _ => CompletionOutcome.ok (some "\x7b\"selected_action\": 1\x7d"))
      = Except.ok ⟨some "m1", 1, 0⟩ ∧
    (∃ a, (⟨some "m1", 1, 0⟩ : DecideResult).action = some a ∧ a ∈ ["m0", "m1"]) := by
  constructor
  · rfl
  · exact (claim1_decide_returns_member "RED" sampleState ["m0", "m1"]
      (fun _ => CompletionOutcome.ok (some "\x7b\"selected_action\": 1\x7d"))
      ⟨some "m1", 1, 0⟩ ⟨some "m1", 1, 0⟩ (by simp)).1 rfl

/-- Claim C2: if the remote call raises a transport failure on both
attempts, `decide` returns `playable_actions[0]` after 2 calls and 1
delay, and no exception from the remote call or from parsing escapes (the
result is `Except.ok`), provided the pre-loop serialization reads
succeeded (serialization is outside the retry protection, see C10). -/
theorem claim2_transport_failures_fall_back (color : String) (g : PyState)
    (a : String) (t : List String) (client : Nat → CompletionOutcome)
    (h0 : client 0 = CompletionOutcome.raise)
    (h1 : client 1 = CompletionOutcome.raise)
    (hser : ∃ s, Gemini2_0Player.get_state_string color g (a :: t) = Except.ok s)
    (hpi : ∃ j, pyDictGet g.color_to_index color = Except.ok j) :
    Gemini2_0Player.decide color g (a :: t) client = Except.ok ⟨some a, 2, 1⟩ := by
  obtain ⟨s, hs⟩ := hser
  obtain ⟨j, hj⟩ := hpi
  rw [Gemini2_0Player.decide_eq_of_ok hs hj]
  have ha0 : Gemini2_0Player.attemptStep (a :: t).length (client 0) = none := by
    rw [h0]; rfl
  have ha1 : Gemini2_0Player.attemptStep (a :: t).length (client 1) = none := by
    rw [h1]; rfl
  rw [Gemini2_0Player.decideLoop_step_none_cons ha0,
      Gemini2_0Player.decideLoop_step_none_nil ha1]
  simp [pyListGet_zero]

/-- Witness for C2 at a concrete input: both attempts raise, `decide`
returns the first move with 2 calls and 1 delay. -/
theorem claim2_witness :
    Gemini2_0Player.decide "RED" sampleState ["m0", "m1"]
      (fun _ => CompletionOutcome.raise) = Except.ok ⟨some "m0", 2, 1⟩ :=
  claim2_transport_failures_fall_back "RED" sampleState "m0" ["m1"]
    (fun _ => CompletionOutcome.raise) rfl rfl ⟨_, rfl⟩ ⟨_, rfl⟩

/-- Claim C3: if both attempts return completions whose replies are empty,
malformed, or out of range (no transport failure, but no move obtained),
`decide` returns `playable_actions[0]`, makes exactly `max_retries` remote
calls, and incurs exactly `max_retries - 1` inter-attempt delays. -/
theorem claim3_exhaustion_counts (color : String) (g : PyState)
    (a : String) (t : List String) (client : Nat → CompletionOutcome)
    (h0 : Gemini2_0Player.failedReply (a :: t).length (client 0))
    (h1 : Gemini2_0Player.failedReply (a :: t).length (client 1))
    (hser : ∃ s, Gemini2_0Player.get_state_string color g (a :: t) = Except.ok s)
    (hpi : ∃ j, pyDictGet g.color_to_index color = Except.ok j) :
    Gemini2_0Player.decide color g (a :: t) client
      = Except.ok ⟨some a, Gemini2_0Player.max_retries,
          Gemini2_0Player.max_retries - 1⟩ := by
  obtain ⟨s, hs⟩ := hser
  obtain ⟨j, hj⟩ := hpi
  rw [Gemini2_0Player.decide_eq_of_ok hs hj]
  rw [Gemini2_0Player.decideLoop_step_none_cons h0.2,
      Gemini2_0Player.decideLoop_step_none_nil h1.2]
  simp [pyListGet_zero, Gemini2_0Player.max_retries]

/-- Witness for C3 at a concrete input: both replies are the unparseable
text "garbage"; `decide` returns the first move with 2 calls and 1
delay. -/
theorem claim3_witness :
    Gemini2_0Player.decide "RED" sampleState ["m0", "m1"]
      (fun _ => CompletionOutcome.ok (some "garbage"))
      = Except.ok ⟨some "m0", Gemini2_0Player.max_retries,
          Gemini2_0Player.max_retries - 1⟩ :=
  claim3_exhaustion_counts "RED" sampleState "m0" ["m1"]
    (fun _ => CompletionOutcome.ok (some "garbage"))
    ⟨⟨_, rfl⟩, rfl⟩ ⟨⟨_, rfl⟩, rfl⟩ ⟨_, rfl⟩ ⟨_, rfl⟩

/-- Claim C6: once an attempt yields a valid in-range index `i`, the loop
terminates immediately with that index: whatever completions would have
followed (`post` is arbitrary and unused), the loop makes exactly as many
calls as attempts so far (`pre.length + 1`) and delays only after the
failed attempts (`pre.length`), with no delay on the successful attempt. -/
theorem claim6_success_terminates_loop (N : Nat)
    (pre : List CompletionOutcome) (c : CompletionOutcome)
    (post : List CompletionOutcome) (i : Nat)
    (hpre : ∀ x ∈ pre, Gemini2_0Player.attemptStep N x = none)
    (hc : Gemini2_0Player.attemptStep N c = some i) :
    Gemini2_0Player.runDecideLoop N (pre ++ c :: post)
      = some ⟨i, pre.length + 1, pre.length⟩ := by
  induction pre with
  | nil =>
    simp only [List.nil_append, Gemini2_0Player.runDecideLoop]
    rw [Gemini2_0Player.decideLoop_step_some post hc]
    simp
  | cons p ps ih =>
    have hp : Gemini2_0Player.attemptStep N p = none := hpre p (by simp)
    have hps : ∀ x ∈ ps, Gemini2_0Player.attemptStep N x = none :=
      fun x hx => hpre x (by simp [hx])
    simp only [List.cons_append, Gemini2_0Player.runDecideLoop]
    cases hl : ps ++ c :: post with
    | nil => exact absurd hl (by simp)
    | cons q qs =>
      rw [Gemini2_0Player.decideLoop_step_none_cons hp]
      have hrec := ih hps
      rw [hl] at hrec
      simp only [Gemini2_0Player.runDecideLoop] at hrec
      have h2 := Option.some.inj hrec
      rw [h2]
      simp

/-- Witness for C6 at a concrete input: one failed attempt, then a
successful one selecting index 0, then an unused further outcome: 2 calls,
1 delay, index 0. -/
theorem claim6_witness :
    Gemini2_0Player.runDecideLoop 1
      ([CompletionOutcome.raise]
        ++ CompletionOutcome.ok (some "\x7b\"selected_action\": 0\x7d")
          :: [CompletionOutcome.raise])
      = some ⟨0, 2, 1⟩ := by
  apply claim6_success_terminates_loop
  · intro x hx
    rw [List.mem_singleton] at hx
    rw [hx]
    rfl
  · rfl

/-- Claim C7: the validity check applied to a parsed integer index accepts
exactly the range `[0, N-1]`: `0` and `N - 1` are accepted (yielding the
same index, never clamped), while `N` and `-1` are rejected. -/
theorem claim7_range_check_boundaries (N : Nat) (hN : 1 ≤ N) :
    pyRangeCheck N (PyVal.int 0) = Except.ok (some 0) ∧
    pyRangeCheck N (PyVal.int ((N : Int) - 1)) = Except.ok (some (N - 1)) ∧
    pyRangeCheck N (PyVal.int (N : Int)) = Except.ok none ∧
    pyRangeCheck N (PyVal.int (-1)) = Except.ok none ∧
    (∀ (k : Int) (i : Nat), pyRangeCheck N (PyVal.int k) = Except.ok (some i) →
      k = (i : Int) ∧ 0 ≤ k ∧ k < (N : Int)) := by
  refine ⟨?_, ?_, ?_, ?_, ?_⟩
  · simp only [pyRangeCheck]
    rw [if_pos ⟨by omega, by omega⟩]
    rfl
  · simp only [pyRangeCheck]
    rw [if_pos ⟨by omega, by omega⟩]
    have hv : ((N : Int) - 1).toNat = N - 1 := by omega
    rw [hv]
  · simp only [pyRangeCheck]
    rw [if_neg (by omega)]
  · simp only [pyRangeCheck]
    rw [if_neg (by omega)]
  · intro k i h
    simp only [pyRangeCheck, Except.ok.injEq] at h
    split at h
    · rename_i hc
      injection h with h2
      subst h2
      exact ⟨by omega, hc.1, hc.2⟩
    · cases h

/-- Witness for C7 at `N = 3`: 0 and 2 accepted unchanged, 3 and -1
rejected. -/
theorem claim7_witness :
    pyRangeCheck 3 (PyVal.int 0) = Except.ok (some 0) ∧
    pyRangeCheck 3 (PyVal.int ((3 : Int) - 1)) = Except.ok (some (3 - 1)) ∧
    pyRangeCheck 3 (PyVal.int (3 : Int)) = Except.ok none ∧
    pyRangeCheck 3 (PyVal.int (-1)) = Except.ok none :=
  ⟨(claim7_range_check_boundaries 3 (by omega)).1,
   (claim7_range_check_boundaries 3 (by omega)).2.1,
   (claim7_range_check_boundaries 3 (by omega)).2.2.1,
   (claim7_range_check_boundaries 3 (by omega)).2.2.2.1⟩

/-- Claim C8: the two adapters implement the same decision procedure:
given the same game state, move list and per-attempt completion outcomes,
`Gemini2_0Player.decide` and `OpenAIGPT4OMiniPlayer.decide` return the
same result — same chosen move, same number of remote calls, same number
of delays (they differ only in model identifier, prompt text and schema
strictness, none of which affect the outcome). -/
theorem claim8_adapters_equivalent (color : String) (g : PyState)
    (pa : List String) (client : Nat → CompletionOutcome) :
    Gemini2_0Player.decide color g pa client
      = OpenAIGPT4OMiniPlayer.decide color g pa client :=
  (adapters_decide_eq color g pa client).symm

/-- Claim C9: a boolean `selected_action` passes the range check as the
integer 0 or 1 (Python `bool` being an `int` subtype): with at least two
moves, `{"selected_action": true}` makes `decide` return the move at
index 1 and `{"selected_action": false}` the move at index 0, each as a
successful first-attempt selection (1 call, no delay). -/
theorem claim9_boolean_accepted (color : String) (g : PyState)
    (a b : String) (t : List String)
    (client1 client2 : Nat → CompletionOutcome)
    (h1 : client1 0 = CompletionOutcome.ok (some "\x7b\"selected_action\": true\x7d"))
    (h2 : client2 0 = CompletionOutcome.ok (some "\x7b\"selected_action\": false\x7d"))
    (hser : ∃ s, Gemini2_0Player.get_state_string color g (a :: b :: t) = Except.ok s)
    (hpi : ∃ j, pyDictGet g.color_to_index color = Except.ok j) :
    Gemini2_0Player.decide color g (a :: b :: t) client1 = Except.ok ⟨some b, 1, 0⟩ ∧
    Gemini2_0Player.decide color g (a :: b :: t) client2 = Except.ok ⟨some a, 1, 0⟩ := by
  obtain ⟨s, hs⟩ := hser
  obtain ⟨j, hj⟩ := hpi
  constructor
  · rw [Gemini2_0Player.decide_eq_of_ok hs hj]
    have hstep : Gemini2_0Player.attemptStep (a :: b :: t).length (client1 0)
        = some 1 := by
      rw [h1]
      have hred : Gemini2_0Player.attemptStep (a :: b :: t).length
          (CompletionOutcome.ok (some "\x7b\"selected_action\": true\x7d"))
          = if 0 ≤ (1 : Int) ∧ (1 : Int) < ((a :: b :: t).length : Int)
            then some 1 else none := rfl
      rw [hred, if_pos ⟨by omega, by simp only [List.length_cons]; push_cast; omega⟩]
    rw [Gemini2_0Player.decideLoop_step_some [client1 1] hstep]
    have hget : pyListGet (a :: b :: t) (1 : Int) = Except.ok b := by
      have hg := @pyListGet_ofNat _ (a :: b :: t) 1 (by simp)
      simpa using hg
    simp [hget]
  · rw [Gemini2_0Player.decide_eq_of_ok hs hj]
    have hstep : Gemini2_0Player.attemptStep (a :: b :: t).length (client2 0)
        = some 0 := by
      rw [h2]
      have hred : Gemini2_0Player.attemptStep (a :: b :: t).length
          (CompletionOutcome.ok (some "\x7b\"selected_action\": false\x7d"))
          = if 0 ≤ (0 : Int) ∧ (0 : Int) < ((a :: b :: t).length : Int)
            then some 0 else none := rfl
      rw [hred, if_pos ⟨by omega, by simp only [List.length_cons]; push_cast; omega⟩]
    rw [Gemini2_0Player.decideLoop_step_some [client2 1] hstep]
    simp [pyListGet_zero]

/-- Witness for C9 at a concrete input: with moves `["m0", "m1"]`, a
`true` reply yields `"m1"` and a `false` reply yields `"m0"`, each with
one call and no delay. -/
theorem claim9_witness :
    Gemini2_0Player.decide "RED" sampleState ["m0", "m1"]
      (fun _ => CompletionOutcome.ok (some "\x7b\"selected_action\": true\x7d"))
      = Except.ok ⟨some "m1", 1, 0⟩ ∧
    Gemini2_0Player.decide "RED" sampleState ["m0", "m1"]
      (fun _ => CompletionOutcome.ok (some "\x7b\"selected_action\": false\x7d"))
      = Except.ok ⟨some "m0", 1, 0⟩ :=
  claim9_boolean_accepted "RED" sampleState "m0" "m1" []
    (fun _ => CompletionOutcome.ok (some "\x7b\"selected_action\": true\x7d"))
    (fun _ => CompletionOutcome.ok (some "\x7b\"selected_action\": false\x7d"))
    rfl rfl ⟨_, rfl⟩ ⟨_, rfl⟩

/-- Claim C10: `decide` serializes the game state before entering the
try/except retry loop, so an exception raised by `get_state_string` (for
example a missing `player_state` key) propagates out of `decide` to the
caller, whatever the remote client would have answered. -/
theorem claim10_serialization_errors_propagate (color : String) (g : PyState)
    (pa : List String) (client : Nat → CompletionOutcome) (e : PyExc)
    (h : Gemini2_0Player.get_state_string color g pa = Except.error e) :
    Gemini2_0Player.decide color g pa client = Except.error e := by
  unfold Gemini2_0Player.decide
  simp only [h]

/-- Witness for C10 at a concrete input: with an empty `player_state`
dict, serialization raises `KeyError`, and `decide` propagates it even
though the client would have replied with a valid selection. -/
theorem claim10_witness :
    Gemini2_0Player.get_state_string "RED" badState ["m0"]
      = Except.error PyExc.keyError ∧
    Gemini2_0Player.decide "RED" badState ["m0"]
      (fun _ => CompletionOutcome.ok (some "\x7b\"selected_action\": 0\x7d"))
      = Except.error PyExc.keyError :=
  ⟨rfl, claim10_serialization_errors_propagate "RED" badState ["m0"]
    (fun _ => CompletionOutcome.ok (some "\x7b\"selected_action\": 0\x7d"))
    PyExc.keyError rfl⟩

/-- Claim C4 (code-bug evidence): a reply whose content is the bare text
"1" is valid JSON — `json.loads("1")` yields the integer 1 — so the
structured path is entered, and subscripting the integer with
"selected_action" raises `TypeError`, which the
`except (json.JSONDecodeError, KeyError)` handler does not catch; the
bare-integer fallback therefore never runs for plain integer text.  With
N = 3 and every attempt replying "1", `decide` returns
`playable_actions[0]` after 2 calls and 1 delay, not `playable_actions[1]`
after 1 call as the claim states. -/
theorem claim4_bare_integer_text_is_not_selected :
    pyJsonLoads "1" = Except.ok (PyVal.int 1) ∧
    pySubscript (PyVal.int 1) "selected_action" = Except.error PyExc.typeError ∧
    Gemini2_0Player.decide "RED" sampleState ["a0", "a1", "a2"]
      (fun _ => CompletionOutcome.ok (some "1")) = Except.ok ⟨some "a0", 2, 1⟩ :=
  ⟨rfl, rfl, rfl⟩

/-- Claim C5 (counterexample): the two extraction strategies are not
applied independently.  At content "1" with N = 2, the bare-integer
strategy applied to the trimmed text yields the in-range index 1, yet the
attempt fails (`attemptStep` yields no index, because the structured path
is entered and its `TypeError` bypasses the bare-integer handler) and
`decide` falls back to `playable_actions[0]` after exhausting both
attempts — refuting "both extraction strategies are applied independently
to the same text, and either producing an in-range value succeeds". -/
theorem claim5_counterexample :
    pyIntOfChars (pyStrip (String.data "1")) = Except.ok 1 ∧
    Gemini2_0Player.attemptStep 2 (CompletionOutcome.ok (some "1")) = none ∧
    Gemini2_0Player.decide "RED" sampleState ["x0", "x1"]
      (fun _ => CompletionOutcome.ok (some "1")) = Except.ok ⟨some "x0", 2, 1⟩ :=
  ⟨rfl, rfl, rfl⟩

/-- Claim C5 (amended): when the structured field parses successfully but
its integer value is out of range, the attempt fails with no candidate
index — the bare-integer strategy is never consulted after a successful
structured parse (the two paths are mutually exclusive short-circuits:
the bare-integer parse runs only on a JSON decode error or a missing
key). -/
theorem claim5_amended_structured_out_of_range_fails (N : Nat) (s : String)
    (d : List (String × PyVal)) (k : Int)
    (hparse : pyJsonLoads s = Except.ok (PyVal.dict d))
    (hfield : d.lookup "selected_action" = some (PyVal.int k))
    (hout : ¬ (0 ≤ k ∧ k < (N : Int))) :
    Gemini2_0Player.innerTry N s = Except.ok none := by
  unfold Gemini2_0Player.innerTry
  simp only [hparse]
  simp only [pySubscript, hfield]
  simp only [pyRangeCheck]
  rw [if_neg hout]

/-- Witness for the amended C5 at a concrete input: a structured reply
selecting the out-of-range index 5 with N = 3 makes the attempt fail. -/
theorem claim5_amended_witness :
    Gemini2_0Player.innerTry 3 "\x7b\"selected_action\": 5\x7d" = Except.ok none :=
  claim5_amended_structured_out_of_range_fails 3 "\x7b\"selected_action\": 5\x7d"
    [("selected_action", PyVal.int 5)] 5 rfl rfl (by omega)
